import Mathlib

/-!
Verification of the peerbook control-plane broker (Go sources: main.go and
the websocket connection file). The development shallowly embeds the
session/handshake/routing core: JSON-like frames become finite maps
(functions to Option), goroutine bodies become trace-producing functions over
explicit event lists, and the redis store becomes a function from fingerprint
to an optional persisted record.
-/

/-- A JSON-like frame: in the source a Go map from string to string
(readPump's message variable). Absent keys map to none. -/
def Msg : Type := String → Option String

/-- Go map assignment m[k] = v. -/
def mapSet (m : Msg) (k v : String) : Msg :=
  fun x => if x = k then some v else m x

/-- The empty frame. -/
def emptyMsg : Msg := fun _ => none

/-- PeerDoc: the persisted peer record scanned from redis (HGETALL peer:fp),
mirroring the Go struct with fields user, fingerprint, name, kind. -/
structure PeerDoc where
  user : String
  fingerprint : String
  name : String
  kind : String
deriving DecidableEq, Repr

/-- Peer: the per-connection session object. The hub handle, socket handle
and outbound channel are modelled separately (as traces); the state the
claims depend on is the authenticated flag and the optional persisted
record pd, which the PeerNotFound path of newPeer leaves nil. -/
structure Peer where
  authenticated : Bool
  pd : Option PeerDoc
deriving DecidableEq, Repr

/-- The connection query parameters; Go's q.Get returns the empty string
for an absent parameter. -/
structure WsQuery where
  fingerprint : String
  name : String
  user : String
  kind : String
deriving DecidableEq, Repr

/-- Outcome of newPeer: either no peer at all (missing fingerprint query
parameter, Go returns nil plus an error), or a peer together with the
handshake verdict (PeerNotFound, PeerChanged, or success). -/
inductive HandshakeResult where
  | missingFingerprint
  | peerNotFound (p : Peer)
  | peerChanged (p : Peer)
  | ok (p : Peer)
deriving DecidableEq, Repr

/-- Error string of the PeerNotFound error value, from its Error method. -/
def peerNotFoundError (fp : String) : String := "Peer not found: " ++ fp

/-- Error string of the PeerChanged error value, from its Error method. -/
def peerChangedError : String := "Peer exists with different properties"

/-- newPeer from the connection file: looks the claimed fingerprint up in
redis (modelled as the store function). Missing fingerprint refuses the
connection; unknown fingerprint yields an unauthenticated peer with nil pd
and PeerNotFound (note the error is built with an empty fp field); a
persisted record whose name, user or kind differ from the claims yields an
unauthenticated peer with PeerChanged; otherwise the peer is
authenticated. -/
def newPeer (store : String → Option PeerDoc) (q : WsQuery) : HandshakeResult :=
  if q.fingerprint = "" then
    .missingFingerprint
  else
    match store q.fingerprint with
    | none => .peerNotFound { authenticated := false, pd := none }
    | some pd =>
      if pd.name ≠ q.name ∨ pd.user ≠ q.user ∨ pd.kind ≠ q.kind then
        .peerChanged { authenticated := false, pd := some pd }
      else
        .ok { authenticated := true, pd := some pd }

/-- The two trusted source fields readPump injects into every forwarded
frame, overwriting anything the remote client supplied:
message[source_fp] = p.pd.fingerprint; message[source_name] = p.pd.name. -/
def injectSource (pd : PeerDoc) (m : Msg) : Msg :=
  mapSet (mapSet m "source_fp" pd.fingerprint) "source_name" pd.name

/-- One iteration's outcome of ws.ReadJSON in readPump: a decoded frame, or
a read error of any kind (malformed payload, read-deadline expiry, remote
close - the code breaks out of the loop on every non-nil error alike). -/
inductive ReadResult where
  | ok (m : Msg)
  | err

/-- Observable actions of the read task: forwarding an injected frame to
the hub's requests channel, sending the peer on the hub's unregister
channel, closing the websocket, or the runtime panic raised by
dereferencing a nil pd. -/
inductive SessionEvent where
  | forward (m : Msg)
  | unregister
  | closeSocket
  | nilPanic

/-- The trace of readPump over a list of read outcomes. Each successful
read dereferences p.pd to inject the source fields - a nil pd makes that
dereference panic, which aborts the run. The first read error breaks the
loop and the deferred function emits the unregister event and then closes
the socket. An exhausted list models a task still blocked in ReadJSON, so
no exit events appear. -/
def readPumpRun (pd : Option PeerDoc) : List ReadResult → List SessionEvent
  | [] => []
  | .ok m :: rest =>
    match pd with
    | none => [.nilPanic]
    | some d => .forward (injectSource d m) :: readPumpRun pd rest
  | .err :: _ => [.unregister, .closeSocket]

/-- Boolean recogniser for the unregister event. -/
def isUnregisterEv : SessionEvent → Bool
  | .unregister => true
  | _ => false

/-- Boolean recogniser for the socket-close event of the read task. -/
def isCloseEv : SessionEvent → Bool
  | .closeSocket => true
  | _ => false

/-- Boolean recogniser for the nil-dereference panic event. -/
def isPanicEv : SessionEvent → Bool
  | .nilPanic => true
  | _ => false

/-- Whether the read task encounters a read error during a run: execution
walks the successful reads (each one dereferences pd, so with a nil pd a
successful read panics first and the error is never reached) and reports
whether a ReadJSON error is actually hit. -/
def reachesErr (pd : Option PeerDoc) : List ReadResult → Bool
  | [] => false
  | .ok _ :: rest =>
    match pd with
    | none => false
    | some _ => reachesErr pd rest
  | .err :: _ => true

/-- One firing of writePump's select statement, as seen by the task: a
message received from the open send channel together with the success of
the WriteJSON call for it, the hub closing the send channel, or the
keepalive ticker firing together with the success of the ping
WriteMessage call. The message payload is omitted because it never
influences the task's control flow. -/
inductive WriteEvent where
  | recv (writeOk : Bool)
  | closed
  | tick (writeOk : Bool)
deriving DecidableEq, Repr

/-- Observable actions of the write task. -/
inductive WriteAction where
  | writeJSON (ok : Bool)
  | writeClose
  | writePing (ok : Bool)
  | stopTicker
  | closeSocket
deriving DecidableEq, Repr

/-- The trace of writePump over a list of select outcomes. A failed
WriteJSON of an application message is logged and the loop continues; a
closed send channel sends a close control frame and returns; a failed ping
write returns. Returning runs the deferred function: stop the ticker, then
close the socket. An exhausted list models a task still blocked in
select. The SetWriteDeadline calls are not observable and are omitted. -/
def writePump : List WriteEvent → List WriteAction
  | [] => []
  | .recv ok :: rest => .writeJSON ok :: writePump rest
  | .closed :: _ => [.writeClose, .stopTicker, .closeSocket]
  | .tick ok :: rest =>
    if ok then .writePing true :: writePump rest
    else [.writePing false, .stopTicker, .closeSocket]

/-- A write-task run terminates exactly when it contains a hub close of
the send channel or a failed ping write. -/
def writeTerminates (evs : List WriteEvent) : Bool :=
  evs.any fun e =>
    match e with
    | .closed => true
    | .tick ok => !ok
    | .recv _ => false

/-- Boolean recogniser for the socket-close action of the write task. -/
def isCloseWa : WriteAction → Bool
  | .closeSocket => true
  | _ => false

/-- StatusMessage, the struct pushed by sendStatus: both Go fields,
status_code int and description string, begin with a lowercase letter and
are therefore unexported. -/
structure StatusMessage where
  status_code : Int
  description : String
deriving DecidableEq, Repr

/-- sendStatus builds a StatusMessage from the code and the error's Error
string and pushes it on the peer's send channel. -/
def sendStatusMsg (code : Int) (errString : String) : StatusMessage :=
  { status_code := code, description := errString }

/-- The Go field names of StatusMessage, in declaration order. -/
def statusMessageFieldNames : List String := ["status_code", "description"]

/-- Go reflection visibility: a struct field is exported exactly when its
name begins with an uppercase letter. encoding/json (used by gorilla's
WriteJSON) can only marshal exported fields. -/
def goFieldExported (n : String) : Bool :=
  match n.data with
  | [] => false
  | c :: _ => c.isUpper

/-- The fields actually present in the JSON object WriteJSON emits for a
StatusMessage: the declared fields restricted to the exported ones. -/
def statusMessageWireFields : List String :=
  statusMessageFieldNames.filter goFieldExported

/-- Observable actions of serveWs, the websocket handler: rejecting the
request with an HTTP error before any upgrade, pushing a status frame on
the peer's send channel (sendStatus), sending a verification notification,
upgrading the socket, and starting the two pump goroutines. -/
inductive WsAction where
  | httpError (code : Nat)
  | pushStatus (code : Nat) (description : String)
  | notifyAuthEmail
  | upgrade
  | startPumps
deriving DecidableEq, Repr

/-- Peer.sendAuthEmail from the connection file: its body is a bare
return nil under a TODO comment, so it performs no observable action and
reports no error. -/
def sendAuthEmailStubActions : List WsAction := []

/-- serveWs: create the peer from the query; with no peer (missing
fingerprint) reject with HTTP 400; on PeerNotFound or PeerChanged push a
401 status frame with the error string, call the Peer.sendAuthEmail stub,
and continue; in every surviving case upgrade the socket and start the
read and write pumps. -/
def serveWs (store : String → Option PeerDoc) (q : WsQuery) : List WsAction :=
  match newPeer store q with
  | .missingFingerprint => [.httpError 400]
  | .peerNotFound _ =>
    [.pushStatus 401 (peerNotFoundError "")] ++ sendAuthEmailStubActions
      ++ [.upgrade, .startPumps]
  | .peerChanged _ =>
    [.pushStatus 401 peerChangedError] ++ sendAuthEmailStubActions
      ++ [.upgrade, .startPumps]
  | .ok _ => [.upgrade, .startPumps]

/-- Erase the status description of an action, keeping its kind and code:
used to compare how serveWs treats the two handshake-error verdicts. -/
def WsAction.shape : WsAction → WsAction
  | .pushStatus c _ => .pushStatus c ""
  | a => a

/-- A session as the hub's registry sees it: the session flags, the
persisted record it was bound to at handshake, and its bounded outbound
queue. -/
structure HubSession where
  authenticated : Bool
  verified : Bool
  pd : PeerDoc
  queue : List Msg

/-- The routing verdicts of the hub. -/
inductive RouteError where
  | targetNotFound
  | peerIsForeign
  | unauthorizedPeer
deriving DecidableEq, Repr

/-- Capacity of a session's outbound queue. -/
def queueCapacity : Nat := 8

/-- Modelled from the spec: the hub's Route step (section 4.3 of the
specification); the hub loop's body is not among the given source files,
which hold only the error types and the channel producers. Evaluated in
order: TargetNotFound if the target fingerprint has no registry entry,
PeerIsForeign if the target's persisted owning user differs from the
source's persisted owning user, UnauthorizedPeer if the source session is
not authenticated, otherwise the frame (already carrying the injected
source fields) is appended to the target's outbound queue, or dropped
when that queue is full. Returns the updated registry and the verdict. -/
def route (reg : String → Option HubSession) (src : HubSession) (m : Msg) :
    (String → Option HubSession) × Option RouteError :=
  match m "target" with
  | none => (reg, some .targetNotFound)
  | some tfp =>
    match reg tfp with
    | none => (reg, some .targetNotFound)
    | some tgt =>
      if tgt.pd.user ≠ src.pd.user then (reg, some .peerIsForeign)
      else if src.authenticated = false then (reg, some .unauthorizedPeer)
      else if tgt.queue.length < queueCapacity then
        (fun f => if f = tfp then
            some { tgt with queue := tgt.queue ++ [m] }
          else reg f, none)
      else (reg, none)

/-- The persisted peer record as the verification facade uses it (the Go
type behind GetPeer and GetUsersPeers, with fields FP, Name, User, Kind
and Verified). -/
structure PeerRecord where
  fp : String
  name : String
  user : String
  kind : String
  verified : Bool
deriving DecidableEq, Repr

/-- Modelled from the spec: NewPeer, whose defining file is not among the
given sources; per the data model a PeerIdentity is created on the first
verification request with the claimed fingerprint, name, owning user and
kind, and its verified flag is set only by the out-of-band confirmation,
so a fresh record is unverified. -/
def NewPeer (fp name user kind : String) : PeerRecord :=
  { fp := fp, name := name, user := user, kind := kind, verified := false }

/-- Store update, the effect of db.AddPeer and of setName writing the
record back. -/
def storeSet (store : String → Option PeerRecord) (fp : String)
    (p : PeerRecord) : String → Option PeerRecord :=
  fun f => if f = fp then some p else store f

/-- The HTTP responses serveVerify can produce on the paths the claims
cover: a 400 for a missing field, a 409 conflict, the verified peers-list
body, or the verified-false body. -/
inductive VerifyResponse where
  | badRequest
  | conflict
  | okPeersList
  | okUnverified
deriving DecidableEq, Repr

/-- The outcome of one POST to the verification endpoint: the response,
the resulting store, and the emails handed to sendAuthEmail (the facade's
real sendAuthEmail in main.go; delivery stays best-effort behind
throttling, the list records the triggers). -/
structure VerifyOutcome where
  response : VerifyResponse
  store : String → Option PeerRecord
  emailsSent : List String

/-- The response the tail of serveVerify marshals: the user's peer list
when the peer is verified, otherwise a verified-false object. -/
def verifyTailResponse (p : PeerRecord) : VerifyResponse :=
  if p.verified then .okPeersList else .okUnverified

/-- serveVerify's POST branch over a decoded request fp, email, name,
kind. Empty fp or email answer 400. If no record exists for fp, a fresh
record is added and an auth email sent. Otherwise the stored record is
fetched: a record with an empty user is replaced by a fresh one; a record
owned by a different user answers 409 and stops; then a differing stored
name is updated to the claimed one, and an unverified peer triggers an
auth email. The tail marshals the response off the final record. -/
def serveVerifyPost (store : String → Option PeerRecord)
    (fp email name kind : String) : VerifyOutcome :=
  if fp = "" then ⟨.badRequest, store, []⟩
  else if email = "" then ⟨.badRequest, store, []⟩
  else
    match store fp with
    | none =>
      let peer := NewPeer fp name email kind
      ⟨verifyTailResponse peer, storeSet store fp peer, [email]⟩
    | some found =>
      if found.user = "" then
        let peer := NewPeer fp name email kind
        let emails := if peer.verified then [] else [email]
        ⟨verifyTailResponse peer, storeSet store fp peer, emails⟩
      else if found.user ≠ email then
        ⟨.conflict, store, []⟩
      else
        let peer := if found.name ≠ name then { found with name := name }
          else found
        let store1 := if found.name ≠ name then storeSet store fp peer
          else store
        let emails := if peer.verified then [] else [email]
        ⟨verifyTailResponse peer, store1, emails⟩

/-- Sample persisted record owned by alice, used by concrete witnesses. -/
def pdSample : PeerDoc :=
  { user := "alice", fingerprint := "fpA", name := "nA", kind := "client" }

/-- Sample persisted record owned by bob, used by concrete witnesses. -/
def pdBobSample : PeerDoc :=
  { user := "bob", fingerprint := "fpT", name := "nT", kind := "client" }

/-- Concrete frame differing from m2Sample only on the client-supplied
source fields. -/
def m1Sample : Msg := mapSet emptyMsg "source_fp" "evil"

/-- Concrete frame differing from m1Sample only on the client-supplied
source fields. -/
def m2Sample : Msg :=
  mapSet (mapSet emptyMsg "source_fp" "other") "source_name" "bogus"

/-- A store with no persisted records. -/
def storeUnknownW : String → Option PeerDoc := fun _ => none

/-- A connection query claiming a fingerprint absent from storeUnknownW. -/
def qUnknownW : WsQuery :=
  { fingerprint := "fpX", name := "n", user := "u", kind := "k" }

/-- A store holding exactly the record pdSample under its fingerprint. -/
def storeKnownW : String → Option PeerDoc :=
  fun f => if f = "fpA" then some pdSample else none

/-- A connection query claiming pdSample's fingerprint but a different
name. -/
def qMismatchW : WsQuery :=
  { fingerprint := "fpA", name := "imposter", user := "alice", kind := "client" }

/-- A routing source session persisted to alice. -/
def srcSessionW : HubSession :=
  { authenticated := true, verified := true, pd := pdSample, queue := [] }

/-- A routing target session persisted to bob. -/
def tgtSessionW : HubSession :=
  { authenticated := true, verified := true, pd := pdBobSample, queue := [] }

/-- A registry holding exactly the bob session under fingerprint fpT. -/
def regW : String → Option HubSession :=
  fun f => if f = "fpT" then some tgtSessionW else none

/-- A request frame targeting fingerprint fpT. -/
def mTargetW : Msg := mapSet emptyMsg "target" "fpT"

/-- An empty verification-facade store. -/
def vstoreEmptyW : String → Option PeerRecord := fun _ => none

/- ------------------------------------------------------------------ -/
/- Helper lemmas shared by the claim theorems.                         -/
/- ------------------------------------------------------------------ -/

/-- A read-task run that contains a read error splits into forwarded
frames followed by the unregister event and the socket close. -/
theorem readPumpRun_err_split (pd : PeerDoc) :
    ∀ reads : List ReadResult, ReadResult.err ∈ reads →
      ∃ ms : List Msg,
        readPumpRun (some pd) reads
          = ms.map (fun mm => SessionEvent.forward (injectSource pd mm))
            ++ [SessionEvent.unregister, SessionEvent.closeSocket]
  | [], h => absurd h (List.not_mem_nil _)
  | .ok m :: rest, h => by
    have hrest : ReadResult.err ∈ rest := by
      cases h with
      | tail _ h => exact h
    obtain ⟨ms, hms⟩ := readPumpRun_err_split pd rest hrest
    exact ⟨m :: ms, by simp [readPumpRun, hms]⟩
  | .err :: rest, _ => ⟨[], rfl⟩

/-- A read-task run of any session - with or without a persisted record -
that reaches a read error splits into an exit-free prefix followed by the
unregister event and the socket close. -/
theorem readPumpRun_reaches_err_split :
    ∀ (pd : Option PeerDoc) (reads : List ReadResult),
      reachesErr pd reads = true →
      ∃ evs : List SessionEvent,
        readPumpRun pd reads
          = evs ++ [SessionEvent.unregister, SessionEvent.closeSocket] ∧
        evs.countP isUnregisterEv = 0 ∧ evs.countP isCloseEv = 0
  | _, [], h => by simp [reachesErr] at h
  | _, .err :: _, _ => ⟨[], rfl, rfl, rfl⟩
  | none, .ok _ :: _, h => by simp [reachesErr] at h
  | some d, .ok m :: rest, h => by
    have hrest : reachesErr (some d) rest = true := by
      simpa [reachesErr] using h
    obtain ⟨evs, hevs, hu, hc⟩ := readPumpRun_reaches_err_split (some d) rest
      hrest
    refine ⟨SessionEvent.forward (injectSource d m) :: evs, ?_, ?_, ?_⟩
    · simp [readPumpRun, hevs]
    · simp [List.countP_cons, isUnregisterEv, hu]
    · simp [List.countP_cons, isCloseEv, hc]

/-- A predicate false on every forwarded frame counts zero over a block
of forwarded frames. -/
theorem countP_forward_map_zero (p : SessionEvent → Bool)
    (hp : ∀ m : Msg, p (SessionEvent.forward m) = false)
    (f : Msg → Msg) (ms : List Msg) :
    (ms.map (fun mm => SessionEvent.forward (f mm))).countP p = 0 := by
  induction ms with
  | nil => rfl
  | cons a t ih => simp [List.countP_cons, hp, ih]

/-- A terminating write-task run closes the socket exactly once. -/
theorem writePump_terminating_closes_once :
    ∀ evs : List WriteEvent, writeTerminates evs = true →
      (writePump evs).countP isCloseWa = 1
  | [], h => by simp [writeTerminates] at h
  | .recv ok :: rest, h => by
    have hrest : writeTerminates rest = true := by
      simpa [writeTerminates] using h
    simp [writePump, List.countP_cons, isCloseWa,
      writePump_terminating_closes_once rest hrest]
  | .closed :: rest, _ => by
    simp [writePump, List.countP_cons, isCloseWa]
  | .tick ok :: rest, h => by
    cases ok with
    | false => simp [writePump, List.countP_cons, isCloseWa]
    | true =>
      have hrest : writeTerminates rest = true := by
        simpa [writeTerminates] using h
      simp [writePump, List.countP_cons, isCloseWa,
        writePump_terminating_closes_once rest hrest]

/- ------------------------------------------------------------------ -/
/- Claim theorems.                                                     -/
/- ------------------------------------------------------------------ -/

/-- C3: every frame the read task forwards carries source_fp equal to the
session's persisted fingerprint and source_name equal to its persisted
name, and two inbound frames that differ only in the client-supplied
source_fp and source_name fields are forwarded as identical messages. -/
theorem readPump_injects_trusted_source (pd : PeerDoc) (m m1 m2 : Msg)
    (h : ∀ k, k ≠ "source_fp" → k ≠ "source_name" → m1 k = m2 k) :
    injectSource pd m "source_fp" = some pd.fingerprint ∧
    injectSource pd m "source_name" = some pd.name ∧
    injectSource pd m1 = injectSource pd m2 := by
  refine ⟨?_, ?_, ?_⟩
  · simp [injectSource, mapSet]
  · simp [injectSource, mapSet]
  · funext k
    by_cases h1 : k = "source_name"
    · simp [injectSource, mapSet, h1]
    · by_cases h2 : k = "source_fp"
      · simp [injectSource, mapSet, h1, h2]
      · simp [injectSource, mapSet, h1, h2, h k h2 h1]

/-- C3 witness: concrete frames that differ only in the client-supplied
source fields are forwarded as the same trusted message. -/
theorem readPump_injects_trusted_source_witness :
    (∀ k, k ≠ "source_fp" → k ≠ "source_name" → m1Sample k = m2Sample k) ∧
    injectSource pdSample m1Sample "source_fp" = some "fpA" ∧
    injectSource pdSample m1Sample = injectSource pdSample m2Sample := by
  have h : ∀ k, k ≠ "source_fp" → k ≠ "source_name" →
      m1Sample k = m2Sample k := by
    intro k h1 h2
    simp [m1Sample, m2Sample, mapSet, emptyMsg, h1, h2]
  have main := readPump_injects_trusted_source pdSample m1Sample m1Sample
    m2Sample h
  exact ⟨h, main.1, main.2.2⟩

/-- C4: for every session - whether or not it holds a persisted record -
whose read task encounters a read error of any kind (the code breaks on
every non-nil ReadJSON error alike: malformed payload, read-deadline
expiry with no pong, remote close), the run exits exactly once, emitting
exactly one unregistration event to the hub immediately before the socket
close, with no earlier unregistration or close. The hypothesis reachesErr
formalises encountering the error: it also holds for a nil-pd session
whose first read outcome is the error (the usual deadline-expiry fate of
an upgraded unknown-fingerprint client that never sends a frame); the
only runs outside it are those a nil-pd frame panic kills before any read
error is returned. -/
theorem readPump_read_error_unregisters_once (pd : Option PeerDoc)
    (reads : List ReadResult) (h : reachesErr pd reads = true) :
    (readPumpRun pd reads).countP isUnregisterEv = 1 ∧
    (readPumpRun pd reads).countP isCloseEv = 1 ∧
    ∃ pre, readPumpRun pd reads
        = pre ++ [SessionEvent.unregister, SessionEvent.closeSocket] ∧
      pre.countP isUnregisterEv = 0 ∧ pre.countP isCloseEv = 0 := by
  obtain ⟨evs, hevs, hu, hc⟩ := readPumpRun_reaches_err_split pd reads h
  refine ⟨?_, ?_, ⟨evs, hevs, hu, hc⟩⟩
  · simp [hevs, List.countP_append, List.countP_cons, hu, isUnregisterEv]
  · simp [hevs, List.countP_append, List.countP_cons, hc, isCloseEv]

/-- C4 witness: a nil-pd PeerNotFound session whose read deadline expires
before any frame arrives - its run is a single read error - unregisters
exactly once and then closes the socket. -/
theorem readPump_read_error_unregisters_once_witness :
    reachesErr none [ReadResult.err] = true ∧
    (readPumpRun none [ReadResult.err]).countP isUnregisterEv = 1 := by
  have h : reachesErr none [ReadResult.err] = true := rfl
  exact ⟨h, (readPump_read_error_unregisters_once none [ReadResult.err]
    h).1⟩

/-- C8: the PeerNotFound path of newPeer yields a session whose pd is nil,
and the read task's frame handling dereferences pd unconditionally, so any
frame sent by such a session after its socket was upgraded hits the nil
dereference: readPump is safe only under the precondition that pd is not
nil. -/
theorem unknown_fp_session_nil_pd_crashes (store : String → Option PeerDoc)
    (q : WsQuery) (m : Msg) (rest : List ReadResult)
    (h1 : q.fingerprint ≠ "") (h2 : store q.fingerprint = none) :
    newPeer store q
      = .peerNotFound { authenticated := false, pd := none } ∧
    readPumpRun none (ReadResult.ok m :: rest) = [SessionEvent.nilPanic] := by
  constructor
  · simp [newPeer, h1, h2]
  · rfl

/-- C8 witness: a concrete unknown-fingerprint connection gets a nil pd,
and its read task panics on the first inbound frame. -/
theorem unknown_fp_session_nil_pd_crashes_witness :
    qUnknownW.fingerprint ≠ "" ∧ storeUnknownW qUnknownW.fingerprint = none ∧
    (newPeer storeUnknownW qUnknownW
        = .peerNotFound { authenticated := false, pd := none } ∧
      readPumpRun none [ReadResult.ok emptyMsg] = [SessionEvent.nilPanic]) := by
  refine ⟨by decide, rfl, ?_⟩
  exact unknown_fp_session_nil_pd_crashes storeUnknownW qUnknownW emptyMsg []
    (by decide) rfl

/-- C6: a connection whose claimed fingerprint is known but whose persisted
name, user or kind differ from the claims is signalled PeerChanged, its
session is created with authenticated false, and serveWs treats it exactly
like an unknown-fingerprint session: same 401 status push (up to the
description string), same notification call, same upgrade and pump
start. -/
theorem changed_claims_treated_as_unauthenticated
    (store store2 : String → Option PeerDoc) (q q2 : WsQuery) (pd : PeerDoc)
    (h1 : q.fingerprint ≠ "") (h2 : store q.fingerprint = some pd)
    (h3 : pd.name ≠ q.name ∨ pd.user ≠ q.user ∨ pd.kind ≠ q.kind)
    (h4 : q2.fingerprint ≠ "") (h5 : store2 q2.fingerprint = none) :
    newPeer store q = .peerChanged { authenticated := false, pd := some pd } ∧
    (serveWs store q).map WsAction.shape
      = (serveWs store2 q2).map WsAction.shape := by
  have hn : newPeer store q
      = .peerChanged { authenticated := false, pd := some pd } := by
    simp [newPeer, h1, h2, h3]
  have hn2 : newPeer store2 q2
      = .peerNotFound { authenticated := false, pd := none } := by
    simp [newPeer, h4, h5]
  refine ⟨hn, ?_⟩
  simp [serveWs, hn, hn2, sendAuthEmailStubActions, WsAction.shape]

/-- C6 witness: a concrete known fingerprint claimed with a wrong name is
signalled PeerChanged with authenticated false and handled like the
concrete unknown-fingerprint connection. -/
theorem changed_claims_treated_as_unauthenticated_witness :
    (pdSample.name ≠ qMismatchW.name ∨ pdSample.user ≠ qMismatchW.user ∨
      pdSample.kind ≠ qMismatchW.kind) ∧
    newPeer storeKnownW qMismatchW
      = .peerChanged { authenticated := false, pd := some pdSample } ∧
    (serveWs storeKnownW qMismatchW).map WsAction.shape
      = (serveWs storeUnknownW qUnknownW).map WsAction.shape := by
  have h3 : pdSample.name ≠ qMismatchW.name ∨ pdSample.user ≠ qMismatchW.user ∨
      pdSample.kind ≠ qMismatchW.kind := by
    left; decide
  have main := changed_claims_treated_as_unauthenticated storeKnownW
    storeUnknownW qMismatchW qUnknownW pdSample (by decide) rfl h3 (by decide)
    rfl
  exact ⟨h3, main.1, main.2⟩

/-- C2: a connection claiming a fingerprint unknown to the store produces a
session with authenticated false signalling PeerNotFound, the socket is
still upgraded and a 401 status frame is pushed - but no verification
notification is produced, because Peer.sendAuthEmail is a stub whose body
is a bare return nil: the notification the claim requires never happens. -/
theorem unknown_fp_status_push_but_no_notification :
    newPeer storeUnknownW qUnknownW
      = .peerNotFound { authenticated := false, pd := none } ∧
    serveWs storeUnknownW qUnknownW
      = [WsAction.pushStatus 401 (peerNotFoundError ""), WsAction.upgrade,
         WsAction.startPumps] ∧
    WsAction.upgrade ∈ serveWs storeUnknownW qUnknownW ∧
    WsAction.notifyAuthEmail ∉ serveWs storeUnknownW qUnknownW := by
  refine ⟨rfl, rfl, by decide, by decide⟩

/-- C9: sendStatus does build a status message from the numeric code and
the error description, but both Go struct fields are unexported, so the
frame WriteJSON serializes to the client carries neither a status-code
field nor a description field: the wire object is empty. -/
theorem status_frame_serializes_without_fields :
    sendStatusMsg 401 (peerNotFoundError "")
      = { status_code := 401, description := "Peer not found: " } ∧
    "status_code" ∈ statusMessageFieldNames ∧
    "description" ∈ statusMessageFieldNames ∧
    statusMessageWireFields = [] ∧
    "status_code" ∉ statusMessageWireFields ∧
    "description" ∉ statusMessageWireFields := by
  refine ⟨by decide, by decide, by decide, by decide, by decide, by decide⟩

/-- C5 counterexample: the claim that any send failure ends the write task
is false. After a failed WriteJSON of an application message the loop
continues - the run below processes a later ticker event and never reaches
the deferred socket close, refuting the claim at this concrete input. -/
theorem writePump_app_send_failure_continues :
    writePump [WriteEvent.recv false, WriteEvent.tick true]
      = [WriteAction.writeJSON false, WriteAction.writePing true] ∧
    WriteAction.closeSocket
      ∉ writePump [WriteEvent.recv false, WriteEvent.tick true] ∧
    WriteAction.stopTicker
      ∉ writePump [WriteEvent.recv false, WriteEvent.tick true] := by
  refine ⟨rfl, by decide, by decide⟩

/-- C5 amended: the hub closing the send queue ends the write task after a
close frame, and a failed keepalive ping write ends it; a failed
application-message write is logged and the task continues with the next
event. -/
theorem writePump_exit_conditions (rest : List WriteEvent) (ok : Bool) :
    writePump (WriteEvent.closed :: rest)
      = [WriteAction.writeClose, WriteAction.stopTicker,
         WriteAction.closeSocket] ∧
    writePump (WriteEvent.tick false :: rest)
      = [WriteAction.writePing false, WriteAction.stopTicker,
         WriteAction.closeSocket] ∧
    writePump (WriteEvent.recv ok :: rest)
      = WriteAction.writeJSON ok :: writePump rest := ⟨rfl, rfl, rfl⟩

/-- C7 counterexample: the socket is not closed exactly once per session -
each pump closes it in its own deferred function, so a session whose two
tasks both terminate closes the socket twice; and the read task's close
happens at its own exit, while the write task can still be running (the
second conjunct shows a write run that is still alive after the read task
has already closed the socket). -/
theorem session_socket_closed_twice :
    (readPumpRun (some pdSample) [ReadResult.err]).countP isCloseEv
        + (writePump [WriteEvent.closed]).countP isCloseWa = 2 ∧
    (readPumpRun (some pdSample) [ReadResult.err]).countP isCloseEv = 1 ∧
    writePump [WriteEvent.tick true] = [WriteAction.writePing true] := by
  refine ⟨rfl, rfl, rfl⟩

/-- C7 amended: each of the two tasks closes the socket exactly once on
its own exit - a terminated read task contributes one close and a
terminated write task contributes one close, independently, rather than a
single coordinated close after both have finished. -/
theorem each_pump_closes_socket_once (pd : PeerDoc)
    (reads : List ReadResult) (wevs : List WriteEvent)
    (h1 : ReadResult.err ∈ reads) (h2 : writeTerminates wevs = true) :
    (readPumpRun (some pd) reads).countP isCloseEv = 1 ∧
    (writePump wevs).countP isCloseWa = 1 := by
  obtain ⟨ms, hms⟩ := readPumpRun_err_split pd reads h1
  have hc := countP_forward_map_zero isCloseEv (fun _ => rfl)
    (injectSource pd) ms
  constructor
  · simp [hms, List.countP_append, List.countP_cons, hc, isCloseEv]
  · exact writePump_terminating_closes_once wevs h2

/-- C7 amended witness: a concrete session whose read task hit a read
error and whose write task saw its queue closed - each task closed the
socket once. -/
theorem each_pump_closes_socket_once_witness :
    ReadResult.err ∈ [ReadResult.err] ∧
    writeTerminates [WriteEvent.closed] = true ∧
    ((readPumpRun (some pdBobSample) [ReadResult.err]).countP isCloseEv = 1 ∧
      (writePump [WriteEvent.closed]).countP isCloseWa = 1) := by
  have h1 : ReadResult.err ∈ [ReadResult.err] := List.Mem.head _
  have h2 : writeTerminates [WriteEvent.closed] = true := rfl
  exact ⟨h1, h2, each_pump_closes_socket_once pdBobSample [ReadResult.err]
    [WriteEvent.closed] h1 h2⟩

/-- C1: when a routed request's target fingerprint resolves to a
registered session whose persisted owning user differs from the source
session's persisted owning user, routing fails with PeerIsForeign and the
registry - in particular the target's outbound queue - is left unchanged;
the statement quantifies over both sessions' authenticated and verified
flags, so the boundary is independent of verification state. -/
theorem route_foreign_target_rejected
    (reg : String → Option HubSession) (src tgt : HubSession)
    (m : Msg) (tfp : String)
    (h1 : m "target" = some tfp) (h2 : reg tfp = some tgt)
    (h3 : tgt.pd.user ≠ src.pd.user) :
    route reg src m = (reg, some RouteError.peerIsForeign) ∧
    (route reg src m).1 tfp = some tgt := by
  have heq : route reg src m = (reg, some RouteError.peerIsForeign) := by
    simp [route, h1, h2, h3]
  exact ⟨heq, by rw [heq]; exact h2⟩

/-- C1 witness: a concrete request from alice's session targeting bob's
registered session is rejected with PeerIsForeign and bob's queue stays
empty. -/
theorem route_foreign_target_rejected_witness :
    mTargetW "target" = some "fpT" ∧ regW "fpT" = some tgtSessionW ∧
    tgtSessionW.pd.user ≠ srcSessionW.pd.user ∧
    route regW srcSessionW mTargetW
      = (regW, some RouteError.peerIsForeign) := by
  have h1 : mTargetW "target" = some "fpT" := rfl
  have h2 : regW "fpT" = some tgtSessionW := rfl
  have h3 : tgtSessionW.pd.user ≠ srcSessionW.pd.user := by decide
  exact ⟨h1, h2, h3,
    (route_foreign_target_rejected regW srcSessionW tgtSessionW mTargetW
      "fpT" h1 h2 h3).1⟩

/-- C10: a verification claim of fingerprint fp by email e behaves as
follows. Unknown fp: an unverified record with the claimed fields is
created and an auth email is triggered. Known fp owned by another
(non-empty) user: the request answers conflict, the store is untouched
and no email is sent. Known fp, unverified, owned by e: the stored display
name becomes the claimed name and an auth email is re-sent. -/
theorem serveVerify_claim_paths (store : String → Option PeerRecord)
    (fp email name kind : String) (h1 : fp ≠ "") (h2 : email ≠ "") :
    (store fp = none →
      (serveVerifyPost store fp email name kind).store fp
          = some (NewPeer fp name email kind) ∧
      (NewPeer fp name email kind).verified = false ∧
      (serveVerifyPost store fp email name kind).emailsSent = [email]) ∧
    (∀ p, store fp = some p → p.user ≠ "" → p.user ≠ email →
      (serveVerifyPost store fp email name kind).response
          = VerifyResponse.conflict ∧
      (serveVerifyPost store fp email name kind).store = store ∧
      (serveVerifyPost store fp email name kind).emailsSent = []) ∧
    (∀ p, store fp = some p → p.user = email → p.verified = false →
      ((serveVerifyPost store fp email name kind).store fp).map
          PeerRecord.name = some name ∧
      (serveVerifyPost store fp email name kind).emailsSent = [email]) := by
  refine ⟨?_, ?_, ?_⟩
  · intro hnone
    simp [serveVerifyPost, h1, h2, hnone, storeSet, NewPeer]
  · intro p hp hpu hpe
    simp [serveVerifyPost, h1, h2, hp, hpu, hpe]
  · intro p hp hpu hpv
    have hpu' : ¬ p.user = "" := by
      rw [hpu]; exact h2
    by_cases hname : p.name = name
    · simp [serveVerifyPost, h1, h2, hp, hpu', hpu, hname, hpv, hp, hname]
    · simp [serveVerifyPost, h1, h2, hp, hpu', hpu, hname, hpv, storeSet]

/-- C10 witness: claiming a concrete unknown fingerprint for a concrete
email creates the unverified record and triggers exactly one auth
email. -/
theorem serveVerify_claim_paths_witness :
    ("f1" : String) ≠ "" ∧ ("ada@x" : String) ≠ "" ∧
    ((serveVerifyPost vstoreEmptyW "f1" "ada@x" "box" "server").store "f1"
        = some (NewPeer "f1" "box" "ada@x" "server") ∧
      (NewPeer "f1" "box" "ada@x" "server").verified = false ∧
      (serveVerifyPost vstoreEmptyW "f1" "ada@x" "box" "server").emailsSent
        = ["ada@x"]) := by
  refine ⟨by decide, by decide, ?_⟩
  exact (serveVerify_claim_paths vstoreEmptyW "f1" "ada@x" "box" "server"
    (by decide) (by decide)).1 rfl
